import Mathlib

/-!
Shallow embedding of the gibr repository's branch-creation workflow
(src/gibr/git.py), command-dispatch layer (src/gibr/cli/group.py) and the
issues listing command (src/gibr/cli/issues.py).

The git layer (GitPython's `Repo`) is an external collaborator; it is
represented by the `RepoState` record carrying exactly the fields the spec's
data model gives the RepositoryHandle (dirty flag, HEAD validity flag,
detached flag, active branch name, local branch names).  Failure injection for
the git commands (branch creation, checkout, push) and the interactive
prompts are supplied through `GitEnv`.

The notification sink (gibr/notify.py) is not among the given sources; its
`error` function is modelled from the spec: section 6 states "`error` has the
side effect of aborting the current command after emitting", which the
repository's own test suite (tests/test_notify.py) confirms: `error()` prints
and then raises `click.Abort`.  Every call site of `error` therefore emits the
message and terminates the run with `Outcome.aborted`; `info`, `success` and
`warning` only emit.
-/

/-- A message emitted through the notification sink, tagged with severity. -/
inductive Msg where
  | info (text : String)
  | success (text : String)
  | warning (text : String)
  | error (text : String)
deriving DecidableEq, Repr

def Msg.isInfo : Msg → Bool
  | .info _ => true
  | _ => false

def Msg.isSuccess : Msg → Bool
  | .success _ => true
  | _ => false

def Msg.isWarning : Msg → Bool
  | .warning _ => true
  | _ => false

def Msg.isError : Msg → Bool
  | .error _ => true
  | _ => false

/-- A mutating git call made by the workflow (a call that was issued; it may
have raised inside the git layer). -/
inductive GitOp where
  | createHead (name : String)
  | checkout (name : String)
  | push (name : String)
deriving DecidableEq, Repr

/-- How one invocation of `create_and_push_branch` ends: a normal Python
`return`, or a propagating `click.Abort` raised by the error sink. -/
inductive Outcome where
  | returned
  | aborted
deriving DecidableEq, Repr

/-- The observable state of the git repository handle, per the spec's
RepositoryHandle data model: dirty-state flag, HEAD validity flag,
detached-HEAD flag, active branch name, list of existing local branch
names. -/
structure RepoState where
  is_dirty : Bool
  head_valid : Bool
  head_detached : Bool
  active_branch : String
  heads : List String
deriving DecidableEq, Repr

/-- The environment of one `create_and_push_branch` run: whether `Repo(".")`
succeeds (`repo_ok = false` means `InvalidGitRepositoryError` is raised), the
repository state, the answers the user would give to the two interactive
prompts, whether each git command succeeds (`false` means it raises
`GitCommandError`), and the text of that error. -/
structure GitEnv where
  repo_ok : Bool
  repo : RepoState
  confirm_answer : Bool
  suffix_answer : String
  create_ok : Bool
  checkout_ok : Bool
  push_ok : Bool
  git_err_text : String
deriving DecidableEq, Repr

/-- Everything observable about one run: the messages emitted through the
notification sink in order, the mutating git calls issued in order, how many
times `repo.close()` ran, and how the run ended. -/
structure Trace where
  msgs : List Msg
  ops : List GitOp
  closes : Nat
  outcome : Outcome
deriving DecidableEq, Repr

/-- Embeds `_validate_repo_state` (src/gibr/git.py, lines 11-26).  Returns the
emitted messages and `none` when the `error` call aborted the command (the
source's `return False` line is unreachable because `error` raises), or
`some true` when validation passes. -/
def _validate_repo_state (repo : RepoState) : List Msg × Option Bool :=
  let dirtyMsgs :=
    if repo.is_dirty then
      [Msg.warning "Working tree is dirty — uncommitted changes present."]
    else []
  if !repo.head_valid then
    (dirtyMsgs ++ [Msg.error "Please make an initial commit before using gibr."], none)
  else
    let detachedMsgs :=
      if repo.head_detached then [Msg.warning "HEAD is detached (not on a branch)."]
      else []
    (dirtyMsgs ++ detachedMsgs, some true)

/-- Embeds `_handle_existing_branch` (src/gibr/git.py, lines 29-58).  Returns
the emitted messages and the branch name to use (possibly with suffix), or
`none` to cancel.  `confirm_answer` and `suffix_answer` are the answers the
user gives to `click.confirm` and `click.prompt`. -/
def _handle_existing_branch (repo : RepoState) (branch_name : String)
    (dry_run : Bool) (confirm_answer : Bool) (suffix_answer : String) :
    List Msg × Option String :=
  if repo.active_branch == branch_name then
    ([Msg.warning s!"Branch '{branch_name}' already exists and is checked out"], none)
  else
    let w := Msg.warning s!"Branch '{branch_name}' already exists locally."
    if dry_run then
      ([w, Msg.info s!"[DRY RUN] Would prompt to create branch with suffix since '{branch_name}' exists."],
       none)
    else if confirm_answer then
      let new_name := s!"{branch_name}-{suffix_answer}"
      ([w, Msg.info s!"Creating new branch '{new_name}' instead."], some new_name)
    else
      ([w, Msg.info "Operation canceled by user."], none)

/-- Embeds `create_and_push_branch` (src/gibr/git.py, lines 61-114).  The
`try` body runs until a return, or until an exception: `error` raises
`click.Abort` (modelled from the spec, see the header comment), which
propagates uncaught; `InvalidGitRepositoryError` and `GitCommandError` are
caught by the two handlers, each of which calls `error` and therefore also
ends in `Outcome.aborted`.  `repo.close()` appears only inside the `try`
body, so an abort raised before reaching it leaves `closes = 0`.  The
`logging.debug` call is not part of the notification sink and is not
recorded.  Resolution of the remote named "origin" is treated as part of the
push step. -/
def create_and_push_branch (branch_name : String) (is_push : Bool)
    (dry_run : Bool) (env : GitEnv) : Trace :=
  if !env.repo_ok then
    { msgs := [Msg.error "Not a git repository (or any of the parent directories)."],
      ops := [], closes := 0, outcome := .aborted }
  else
    let repo := env.repo
    match _validate_repo_state repo with
    | (vMsgs, none) =>
      { msgs := vMsgs, ops := [], closes := 0, outcome := .aborted }
    | (vMsgs, some _) =>
      let current_branch := repo.active_branch
      let conflict : List Msg × Option String :=
        if repo.heads.contains branch_name then
          _handle_existing_branch repo branch_name dry_run
            env.confirm_answer env.suffix_answer
        else ([], some branch_name)
      match conflict with
      | (cMsgs, none) =>
        { msgs := vMsgs ++ cMsgs, ops := [], closes := 1, outcome := .returned }
      | (cMsgs, some name) =>
        if dry_run then
          let dMsgs :=
            [Msg.info s!"[DRY RUN] Would create branch '{name}' from {current_branch}.",
             Msg.info s!"[DRY RUN] Would checkout branch: {name}"] ++
            (if is_push then [Msg.info s!"[DRY RUN] Would push branch '{name}' to origin."]
             else [])
          { msgs := vMsgs ++ cMsgs ++ dMsgs, ops := [], closes := 1, outcome := .returned }
        else if !env.create_ok then
          { msgs := vMsgs ++ cMsgs ++ [Msg.error s!"Git command failed: {env.git_err_text}"],
            ops := [GitOp.createHead name], closes := 0, outcome := .aborted }
        else
          let m1 := Msg.success s!"Created branch '{name}' from {current_branch}."
          if !env.checkout_ok then
            { msgs := vMsgs ++ cMsgs ++ [m1, Msg.error s!"Git command failed: {env.git_err_text}"],
              ops := [GitOp.createHead name, GitOp.checkout name],
              closes := 0, outcome := .aborted }
          else
            let m2 := Msg.success s!"Checked out branch: {name}"
            if is_push then
              if !env.push_ok then
                { msgs := vMsgs ++ cMsgs ++ [m1, m2, Msg.error s!"Git command failed: {env.git_err_text}"],
                  ops := [GitOp.createHead name, GitOp.checkout name, GitOp.push name],
                  closes := 0, outcome := .aborted }
              else
                { msgs := vMsgs ++ cMsgs ++ [m1, m2, Msg.success s!"Pushed branch '{name}' to origin."],
                  ops := [GitOp.createHead name, GitOp.checkout name, GitOp.push name],
                  closes := 1, outcome := .returned }
            else
              { msgs := vMsgs ++ cMsgs ++ [m1, m2],
                ops := [GitOp.createHead name, GitOp.checkout name],
                closes := 1, outcome := .returned }

/-- The fixed set of global flags, `GLOBAL_FLAGS` in src/gibr/cli/group.py. -/
def GLOBAL_FLAGS : List String := ["--verbose"]

/-- Embeds `GibrGroup.is_likely_non_digit_issue` (src/gibr/cli/group.py,
lines 14-17).  The two tracker predicates (`JiraTracker.is_jira_issue`,
`LinearTracker.is_linear_issue`) are external collaborators whose modules are
not among the given sources; the dispatcher only combines them with a logical
OR, so they are taken as parameters. -/
def is_likely_non_digit_issue (jira linear : String → Bool) (arg : String) : Bool :=
  jira arg || linear arg

/-- Embeds `GibrGroup.handle_git_alias` (src/gibr/cli/group.py, lines 19-29):
if the first token is "git", drop it and move the global flags among the
remaining tokens to the front; otherwise return the list unchanged. -/
def handle_git_alias (args : List String) : List String :=
  match args with
  | [] => []
  | a0 :: rest =>
    if a0 == "git" then
      let flags := rest.filter (fun a => GLOBAL_FLAGS.contains a)
      let others := rest.filter (fun a => !GLOBAL_FLAGS.contains a)
      flags ++ others
    else a0 :: rest

/-- Python's `str.startswith` on CLI tokens: the prefix test, computed on the
character list. -/
def String.startswith (s px : String) : Bool :=
  px.toList.isPrefixOf s.toList

/-- Python's `str.isdigit` as used on CLI tokens: nonempty and every
character a digit. -/
def isdigit (s : String) : Bool :=
  !s.isEmpty && s.toList.all Char.isDigit

/-- Embeds `GibrGroup.handle_create_command` (src/gibr/cli/group.py, lines
31-41): walk the tokens; tokens starting with "--" are skipped; at the first
other token, if it is not a registered subcommand and is all digits or
matches a tracker predicate, insert "create" right before it; in every case
the scan stops at that first non-flag token.  `commands` is the registered
subcommand-name table, `jira` and `linear` the tracker predicates. -/
def handle_create_command (commands : List String) (jira linear : String → Bool) :
    List String → List String
  | [] => []
  | arg :: rest =>
    if arg.startswith "--" then
      arg :: handle_create_command commands jira linear rest
    else if !commands.contains arg &&
        (isdigit arg || is_likely_non_digit_issue jira linear arg) then
      "create" :: arg :: rest
    else
      arg :: rest

/-- An issue record, per the tracker collaborator contract. -/
structure Issue where
  id : String
  type : String
  title : String
  assignee : String
deriving DecidableEq, Repr

/-- What the `issues` command writes to standard output: `click.echo`,
`click.echo_via_pager`, or `safe_echo`. -/
inductive Echo where
  | plain (text : String)
  | pager (text : String)
  | safe (text : String)
deriving DecidableEq, Repr

def Echo.text : Echo → String
  | .plain t => t
  | .pager t => t
  | .safe t => t

/-- Embeds the `issues` command (src/gibr/cli/issues.py, lines 22-39).
`list_issues` is what `tracker.list_issues()` returned; `json_dumps` and
`tabulate_fn` stand for the external `json.dumps`/`tabulate` formatters
(`tabulate_fn` receives the row table built from the issues); `isatty` is
`sys.stdout.isatty()`.  Returns the notification-sink messages and the
standard-output writes, each in order. -/
def issues (list_issues : List Issue) (output_json : Bool)
    (json_dumps : List Issue → String)
    (tabulate_fn : List (List String) → String)
    (isatty : Bool) : List Msg × List Echo :=
  if list_issues.isEmpty then
    ([Msg.warning "No open issues found."], [])
  else
    let table := list_issues.map (fun issue => [issue.id, issue.type, issue.title, issue.assignee])
    if output_json then
      ([], [Echo.plain (json_dumps list_issues)])
    else
      let output := tabulate_fn table
      if isatty then ([], [Echo.pager output])
      else ([], [Echo.safe output])

/-- A clean repository checked out on "main": nothing dirty, valid attached
HEAD, no recorded local branch names. -/
def cleanRepo : RepoState :=
  { is_dirty := false, head_valid := true, head_detached := false,
    active_branch := "main", heads := [] }

/-- A baseline environment: the handle is acquired, the repository is clean,
every git command succeeds, and the user would accept the suffix prompt with
the default "take2". -/
def baseEnv : GitEnv :=
  { repo_ok := true, repo := cleanRepo, confirm_answer := true,
    suffix_answer := "take2", create_ok := true, checkout_ok := true,
    push_ok := true, git_err_text := "git push failed" }

/-- `Repo(".")` raises `InvalidGitRepositoryError`. -/
def envNoRepo : GitEnv := { baseEnv with repo_ok := false }

/-- Valid handle but no commit yet: HEAD is invalid. -/
def envInvalidHead : GitEnv :=
  { baseEnv with repo := { cleanRepo with head_valid := false } }

/-- Valid HEAD, detached. -/
def envDetached : GitEnv :=
  { baseEnv with repo := { cleanRepo with head_detached := true } }

/-- The branch "feature/x" already exists locally while "main" is checked
out. -/
def envConflict : GitEnv :=
  { baseEnv with repo := { cleanRepo with heads := ["feature/x"] } }

/-- Dirty tree and the requested branch "main" is the checked-out branch. -/
def envDirtyConflict : GitEnv :=
  { baseEnv with repo := { cleanRepo with is_dirty := true, heads := ["main"] } }

/-- Everything fine until the push, which fails with `GitCommandError`. -/
def envPushFail : GitEnv := { baseEnv with push_ok := false }

/-- Branch creation itself fails with `GitCommandError`. -/
def envCreateFail : GitEnv := { baseEnv with create_ok := false }

/-! Helper lemmas shared by the claim theorems. -/

theorem warning_not_success_error (m : Msg) (h : Msg.isWarning m = true) :
    Msg.isSuccess m = false ∧ Msg.isError m = false := by
  cases m <;> simp_all [Msg.isWarning, Msg.isSuccess, Msg.isError]

theorem validate_pass (repo : RepoState) (h : repo.head_valid = true) :
    _validate_repo_state repo =
      ((if repo.is_dirty then
          [Msg.warning "Working tree is dirty — uncommitted changes present."]
        else []) ++
       (if repo.head_detached then
          [Msg.warning "HEAD is detached (not on a branch)."]
        else []),
       some true) := by
  simp [_validate_repo_state, h]

theorem validate_pass_warnings (repo : RepoState) (h : repo.head_valid = true) :
    ∀ m ∈ (_validate_repo_state repo).1, Msg.isWarning m = true := by
  rw [validate_pass repo h]
  intro m hm
  rcases List.mem_append.mp hm with h1 | h1 <;>
    (split at h1 <;> simp_all [Msg.isWarning])

theorem handle_existing_no_success_error (repo : RepoState) (branch_name : String)
    (dry_run confirm_answer : Bool) (suffix_answer : String) :
    ∀ m ∈ (_handle_existing_branch repo branch_name dry_run confirm_answer suffix_answer).1,
      Msg.isSuccess m = false ∧ Msg.isError m = false := by
  unfold _handle_existing_branch
  split
  · intro m hm
    simp only [List.mem_singleton] at hm
    subst hm; simp [Msg.isSuccess, Msg.isError]
  · split
    · intro m hm
      simp only [List.mem_cons, List.not_mem_nil, or_false] at hm
      rcases hm with rfl | rfl <;> simp [Msg.isSuccess, Msg.isError]
    · split <;>
      · intro m hm
        simp only [List.mem_cons, List.not_mem_nil, or_false] at hm
        rcases hm with rfl | rfl <;> simp [Msg.isSuccess, Msg.isError]

/-- C10: when the tracker returns an empty issue list, the issues command
emits exactly one warning through the notification sink and writes nothing to
standard output, for every value of the --json flag, every formatter and
every terminal kind — in particular no empty JSON array is printed. -/
theorem issues_empty_warns_once_no_output (output_json : Bool)
    (json_dumps : List Issue → String) (tabulate_fn : List (List String) → String)
    (isatty : Bool) :
    issues [] output_json json_dumps tabulate_fn isatty =
      ([Msg.warning "No open issues found."], []) := rfl

/-- C7: the alias-routing pass is the identity on every token list whose
first token is not "git"; when the first token is "git" it drops that token
and returns the global-flag tokens followed by all remaining tokens, each
group keeping its relative order (the two filters preserve order). -/
theorem handle_git_alias_routing (args : List String) :
    (args.head? ≠ some "git" → handle_git_alias args = args) ∧
    (∀ rest, args = "git" :: rest →
      handle_git_alias args =
        rest.filter (fun a => GLOBAL_FLAGS.contains a) ++
        rest.filter (fun a => !GLOBAL_FLAGS.contains a)) := by
  constructor
  · intro h
    cases args with
    | nil => rfl
    | cons a0 rest =>
      have ha : (a0 == "git") = false := by
        cases hb : a0 == "git"
        · rfl
        · exact absurd (by simp_all) h
      simp [handle_git_alias, ha]
  · rintro rest rfl
    simp [handle_git_alias]

/-- Closed witness for `handle_git_alias_routing`: both conjuncts applied at
concrete token lists (the spec's own example among them). -/
theorem handle_git_alias_routing_witness :
    handle_git_alias ["git", "issues", "--verbose", "--json"] =
        ["--verbose", "issues", "--json"] ∧
    handle_git_alias ["gibr", "--verbose", "create", "123"] =
        ["gibr", "--verbose", "create", "123"] := by
  constructor
  · have h := (handle_git_alias_routing ["git", "issues", "--verbose", "--json"]).2
      ["issues", "--verbose", "--json"] rfl
    rw [h]; rfl
  · exact (handle_git_alias_routing ["gibr", "--verbose", "create", "123"]).1 (by decide)

theorem handle_create_command_cons (commands : List String)
    (jira linear : String → Bool) (arg : String) (rest : List String) :
    handle_create_command commands jira linear (arg :: rest) =
      if arg.startswith "--" = true then
        arg :: handle_create_command commands jira linear rest
      else if (!commands.contains arg &&
          (isdigit arg || is_likely_non_digit_issue jira linear arg)) = true then
        "create" :: arg :: rest
      else arg :: rest := rfl

theorem handle_create_command_skips_flags (commands : List String)
    (jira linear : String → Bool) (flags tail_args : List String)
    (hf : ∀ a ∈ flags, a.startswith "--" = true) :
    handle_create_command commands jira linear (flags ++ tail_args) =
      flags ++ handle_create_command commands jira linear tail_args := by
  induction flags with
  | nil => simp
  | cons f fs ih =>
    have hstart : f.startswith "--" = true := hf f (List.mem_cons_self f fs)
    have ih2 := ih (fun a ha => hf a (List.mem_cons_of_mem f ha))
    simp [handle_create_command, hstart, ih2]

/-- C6: the implicit-create pass examines only the first token not starting
with "--".  If every token is a flag the list is unchanged; otherwise, for the
first non-flag token: a registered subcommand leaves the list unchanged, an
all-digit token or one matching a tracker predicate gets the single token
"create" inserted immediately before it, and any other token leaves the list
unchanged. -/
theorem handle_create_command_decision (commands : List String)
    (jira linear : String → Bool) (args : List String) :
    ((∀ a ∈ args, a.startswith "--" = true) →
      handle_create_command commands jira linear args = args) ∧
    (∀ flags tok rest, args = flags ++ tok :: rest →
      (∀ a ∈ flags, a.startswith "--" = true) →
      tok.startswith "--" = false →
      handle_create_command commands jira linear args =
        if commands.contains tok then args
        else if isdigit tok || is_likely_non_digit_issue jira linear tok then
          flags ++ "create" :: tok :: rest
        else args) := by
  constructor
  · intro hall
    have h := handle_create_command_skips_flags commands jira linear args [] hall
    simpa [handle_create_command] using h
  · rintro flags tok rest rfl hf ht
    rw [handle_create_command_skips_flags commands jira linear flags _ hf]
    cases hc : commands.contains tok <;>
      cases hd : isdigit tok || is_likely_non_digit_issue jira linear tok <;>
        (simp only [handle_create_command_cons, ht, hc, hd]; simp)

/-- Closed witness for `handle_create_command_decision`: the spec's examples,
with trackers that match nothing and a registry holding "issues" and
"create". -/
theorem handle_create_command_decision_witness :
    handle_create_command ["issues", "create"] (fun _ => false) (fun _ => false)
        ["--verbose", "123"] = ["--verbose", "create", "123"] ∧
    handle_create_command ["issues", "create"] (fun _ => false) (fun _ => false)
        ["issues"] = ["issues"] ∧
    handle_create_command ["issues", "create"] (fun _ => false) (fun _ => false)
        ["--verbose"] = ["--verbose"] := by
  refine ⟨?_, ?_, ?_⟩
  · have h := (handle_create_command_decision ["issues", "create"]
      (fun _ => false) (fun _ => false) ["--verbose", "123"]).2
      ["--verbose"] "123" [] rfl (by decide) (by decide)
    rw [h]; decide
  · have h := (handle_create_command_decision ["issues", "create"]
      (fun _ => false) (fun _ => false) ["issues"]).2
      [] "issues" [] rfl (by decide) (by decide)
    rw [h]; decide
  · exact (handle_create_command_decision ["issues", "create"]
      (fun _ => false) (fun _ => false) ["--verbose"]).1 (by decide)

/-- C9: the implicit-create pass never removes, reorders or rewrites a token:
its output is either the input unchanged, or the input with the single
literal token "create" inserted at one position. -/
theorem handle_create_command_only_inserts (commands : List String)
    (jira linear : String → Bool) (args : List String) :
    handle_create_command commands jira linear args = args ∨
    ∃ pre suf, args = pre ++ suf ∧
      handle_create_command commands jira linear args = pre ++ "create" :: suf := by
  induction args with
  | nil => left; rfl
  | cons arg rest ih =>
    cases hs : arg.startswith "--"
    · cases hins : !commands.contains arg &&
        (isdigit arg || is_likely_non_digit_issue jira linear arg)
      · left
        simp only [handle_create_command_cons, hs, hins]
        simp
      · right
        refine ⟨[], arg :: rest, rfl, ?_⟩
        simp only [handle_create_command_cons, hs, hins]
        simp
    · have hdef : handle_create_command commands jira linear (arg :: rest) =
          arg :: handle_create_command commands jira linear rest := by
        simp only [handle_create_command_cons, hs]
        simp
      rcases ih with h | ⟨pre, suf, hsplit, hres⟩
      · left; rw [hdef, h]
      · right
        refine ⟨arg :: pre, suf, by simp [hsplit], ?_⟩
        rw [hdef, hres]; rfl

theorem conflict_step (branch_name : String) (env : GitEnv)
    (hnoc : env.repo.heads.contains branch_name = true →
      env.repo.active_branch ≠ branch_name ∧ env.confirm_answer = true) :
    ∃ cMsgs name,
      (if env.repo.heads.contains branch_name then
        _handle_existing_branch env.repo branch_name false
          env.confirm_answer env.suffix_answer
       else ([], some branch_name)) = (cMsgs, some name) ∧
      (∀ m ∈ cMsgs, Msg.isSuccess m = false ∧ Msg.isError m = false) := by
  cases hc : env.repo.heads.contains branch_name
  · exact ⟨[], branch_name, by simp [hc], by simp⟩
  · obtain ⟨hact, hconf⟩ := hnoc hc
    have hbeq : (env.repo.active_branch == branch_name) = false :=
      beq_eq_false_iff_ne.mpr hact
    have hres : ∃ nm,
        (_handle_existing_branch env.repo branch_name false
          env.confirm_answer env.suffix_answer).2 = some nm := by
      simp [_handle_existing_branch, hbeq, hconf]
    obtain ⟨nm, hnm⟩ := hres
    refine ⟨(_handle_existing_branch env.repo branch_name false
      env.confirm_answer env.suffix_answer).1, nm, ?_, ?_⟩
    · rw [if_pos rfl, ← hnm]
    · exact handle_existing_no_success_error env.repo branch_name false
        env.confirm_answer env.suffix_answer

/-- C1 (amended): when the handle is acquired, it is closed exactly once on
every normally-returning path (no-op, cancellation, dry-run and successful
execute paths) and zero times on every aborting path (invalid HEAD, git
command failure), because the error sink raises before `repo.close()` is
reached; a run that never acquires the handle also closes nothing. -/
theorem close_once_iff_returned (branch_name : String) (is_push dry_run : Bool)
    (env : GitEnv) (t : Trace)
    (ht : create_and_push_branch branch_name is_push dry_run env = t) :
    t.closes = if t.outcome = Outcome.returned then 1 else 0 := by
  simp only [create_and_push_branch] at ht
  repeat' split at ht
  all_goals subst ht
  all_goals simp

/-- Closed witness for `close_once_iff_returned` at the baseline
environment. -/
theorem close_once_iff_returned_witness :
    (create_and_push_branch "feature/x" true false baseEnv).closes =
      if (create_and_push_branch "feature/x" true false baseEnv).outcome =
          Outcome.returned then 1 else 0 :=
  close_once_iff_returned "feature/x" true false baseEnv _ rfl

/-- C1 counterexample: with the handle acquired (`repo_ok = true`) and an
invalid HEAD, the error sink raises before `repo.close()` is reached; the
handle is closed zero times on this exit path, not exactly once. -/
theorem invalid_head_skips_close :
    envInvalidHead.repo_ok = true ∧
    (create_and_push_branch "feature/x" true false envInvalidHead).closes = 0 ∧
    (create_and_push_branch "feature/x" true false envInvalidHead).outcome =
      Outcome.aborted := by
  refine ⟨rfl, ?_, ?_⟩ <;> rfl

/-- C2 counterexample: when the working directory is not a git repository the
condition is reported through the error sink, but the run does not return
cleanly: the error sink raises and the process aborts (the repository's own
test expects `click.Abort` here). -/
theorem not_a_repo_does_not_return_cleanly :
    (create_and_push_branch "feature/x" true false envNoRepo).outcome ≠
      Outcome.returned ∧
    (create_and_push_branch "feature/x" true false envNoRepo).msgs =
      [Msg.error "Not a git repository (or any of the parent directories)."] := by
  exact ⟨by decide, rfl⟩

/-- C2 (amended): the two failure kinds behave symmetrically, not
asymmetrically: a missing repository is reported through the error sink and
aborts (it is caught, reported, and the error sink raises), and a git-command
failure is likewise reported and aborts. -/
theorem failure_kinds_both_abort (branch_name : String) (is_push dry_run : Bool)
    (env : GitEnv) (t : Trace)
    (ht : create_and_push_branch branch_name is_push dry_run env = t) :
    (env.repo_ok = false →
      t = { msgs := [Msg.error "Not a git repository (or any of the parent directories)."],
            ops := [], closes := 0, outcome := Outcome.aborted }) ∧
    (env.repo_ok = true → env.repo.head_valid = true → dry_run = false →
      env.create_ok = false →
      (env.repo.heads.contains branch_name = true →
        env.repo.active_branch ≠ branch_name ∧ env.confirm_answer = true) →
      t.outcome = Outcome.aborted ∧
      Msg.error s!"Git command failed: {env.git_err_text}" ∈ t.msgs) := by
  constructor
  · intro h
    simp [create_and_push_branch, h] at ht
    exact ht.symm
  · intro hro hvalid hdry hcreate hnoc
    subst hdry
    obtain ⟨cMsgs, name, hcs, hmsgs⟩ := conflict_step branch_name env hnoc
    simp only [create_and_push_branch, hro] at ht
    rw [validate_pass env.repo hvalid, hcs] at ht
    simp only [hcreate] at ht
    simp at ht
    subst ht
    simp

/-- Closed witness for `failure_kinds_both_abort`: the missing-repository
case and a branch-creation failure. -/
theorem failure_kinds_both_abort_witness :
    (create_and_push_branch "feature/x" true false envNoRepo =
      { msgs := [Msg.error "Not a git repository (or any of the parent directories)."],
        ops := [], closes := 0, outcome := Outcome.aborted }) ∧
    ((create_and_push_branch "feature/x" true false envCreateFail).outcome =
        Outcome.aborted ∧
      Msg.error s!"Git command failed: {envCreateFail.git_err_text}" ∈
        (create_and_push_branch "feature/x" true false envCreateFail).msgs) := by
  constructor
  · exact (failure_kinds_both_abort "feature/x" true false envNoRepo _ rfl).1 rfl
  · exact (failure_kinds_both_abort "feature/x" true false envCreateFail _ rfl).2
      rfl rfl rfl rfl (by decide)

theorem handle_existing_checked_out (repo : RepoState) (branch_name : String)
    (dry_run confirm_answer : Bool) (suffix_answer : String)
    (hbeq : (repo.active_branch == branch_name) = true) :
    _handle_existing_branch repo branch_name dry_run confirm_answer suffix_answer =
      ([Msg.warning s!"Branch '{branch_name}' already exists and is checked out"],
       none) := by
  simp [_handle_existing_branch, hbeq]

/-- C3: with the handle acquired, a valid but detached HEAD and no name
conflict, validation emits the detached-HEAD warning and continues: the run
reaches the EXECUTE phase, reporting the would-create step and returning
normally in dry-run, and issuing the branch-creation call otherwise; only an
invalid HEAD terminates the workflow during validation. -/
theorem detached_head_continues (branch_name : String) (is_push dry_run : Bool)
    (env : GitEnv) (t : Trace)
    (ht : create_and_push_branch branch_name is_push dry_run env = t)
    (hro : env.repo_ok = true) (hvalid : env.repo.head_valid = true)
    (hdet : env.repo.head_detached = true)
    (hnc : env.repo.heads.contains branch_name = false) :
    Msg.warning "HEAD is detached (not on a branch)." ∈ t.msgs ∧
    (dry_run = true → t.outcome = Outcome.returned ∧ t.ops = [] ∧
      Msg.info s!"[DRY RUN] Would create branch '{branch_name}' from {env.repo.active_branch}." ∈
        t.msgs) ∧
    (dry_run = false → GitOp.createHead branch_name ∈ t.ops) := by
  simp only [create_and_push_branch, hro] at ht
  rw [validate_pass env.repo hvalid, hnc] at ht
  simp only [hdet] at ht
  simp at ht
  repeat' split at ht
  all_goals subst ht
  all_goals simp_all

/-- Closed witness for `detached_head_continues`: a detached-HEAD dry-run
emits the warning; a detached-HEAD real run issues the creation call. -/
theorem detached_head_continues_witness :
    Msg.warning "HEAD is detached (not on a branch)." ∈
      (create_and_push_branch "feature/x" true true envDetached).msgs ∧
    GitOp.createHead "feature/x" ∈
      (create_and_push_branch "feature/x" true false envDetached).ops := by
  constructor
  · exact (detached_head_continues "feature/x" true true envDetached _
      rfl rfl rfl rfl rfl).1
  · exact ((detached_head_continues "feature/x" true false envDetached _
      rfl rfl rfl rfl rfl).2).2 rfl

/-- C4 counterexample: a dry-run with push requested on a valid repository
state in which the requested name already exists locally: no git call is
made, but a single info message (the suffix-prompt notice) is emitted rather
than the 3 {create, checkout, push} info messages the claim requires. -/
theorem dry_run_conflict_one_info :
    (create_and_push_branch "feature/x" true true envConflict).ops = [] ∧
    (create_and_push_branch "feature/x" true true envConflict).msgs.countP
      Msg.isInfo = 1 ∧
    ¬ (create_and_push_branch "feature/x" true true envConflict).msgs.countP
      Msg.isInfo = 3 := by
  decide

/-- C4 (amended): a dry-run never issues a branch-creation, checkout or push
call on any path; when additionally the handle is acquired, HEAD is valid and
the requested name has no local conflict, the run returns normally, closes
the handle, and emits exactly 3 info messages when push is requested and 2
when it is not. -/
theorem dry_run_frame (branch_name : String) (is_push : Bool) (env : GitEnv)
    (t : Trace) (ht : create_and_push_branch branch_name is_push true env = t) :
    t.ops = [] ∧
    (env.repo_ok = true → env.repo.head_valid = true →
      env.repo.heads.contains branch_name = false →
      t.outcome = Outcome.returned ∧ t.closes = 1 ∧
      t.msgs.countP Msg.isInfo = if is_push then 3 else 2) := by
  constructor
  · simp only [create_and_push_branch] at ht
    repeat' split at ht
    all_goals subst ht
    all_goals simp_all
  · intro hro hvalid hnc
    simp only [create_and_push_branch, hro] at ht
    rw [validate_pass env.repo hvalid, hnc] at ht
    simp at ht
    subst ht
    cases hp : is_push <;>
      cases hdirty : env.repo.is_dirty <;>
        cases hdet : env.repo.head_detached <;>
          simp [hp, hdirty, hdet, List.countP_append, List.countP_cons, Msg.isInfo]

/-- Closed witness for `dry_run_frame` at a clean no-conflict repository with
push requested. -/
theorem dry_run_frame_witness :
    (create_and_push_branch "feature/x" true true baseEnv).ops = [] ∧
    ((create_and_push_branch "feature/x" true true baseEnv).outcome =
        Outcome.returned ∧
      (create_and_push_branch "feature/x" true true baseEnv).closes = 1 ∧
      (create_and_push_branch "feature/x" true true baseEnv).msgs.countP
        Msg.isInfo = if true then 3 else 2) := by
  have h := dry_run_frame "feature/x" true baseEnv _ rfl
  exact ⟨h.1, h.2 rfl rfl (by decide)⟩

/-- C8 counterexample: with a dirty working tree and the requested name equal
to the checked-out branch, the run emits two warnings (the dirty-tree
advisory and the already-checked-out notice), not a single warning. -/
theorem checked_out_conflict_two_warnings :
    (create_and_push_branch "main" true false envDirtyConflict).msgs.countP
      Msg.isWarning = 2 ∧
    ¬ (create_and_push_branch "main" true false envDirtyConflict).msgs.countP
      Msg.isWarning = 1 := by
  decide

/-- C8 (amended): when the requested branch name exists locally and equals
the active branch (dry-run or not), the run performs no git mutation, never
reaches the EXECUTE phase, closes the handle and returns normally, and its
messages are exactly the validation advisories followed by the single
already-checked-out warning — one warning beyond the advisories, and no
info, success or error message. -/
theorem active_branch_noop (branch_name : String) (is_push dry_run : Bool)
    (env : GitEnv) (t : Trace)
    (ht : create_and_push_branch branch_name is_push dry_run env = t)
    (hro : env.repo_ok = true) (hvalid : env.repo.head_valid = true)
    (hmem : env.repo.heads.contains branch_name = true)
    (hact : env.repo.active_branch = branch_name) :
    t.ops = [] ∧ t.outcome = Outcome.returned ∧ t.closes = 1 ∧
    t.msgs = (_validate_repo_state env.repo).1 ++
      [Msg.warning s!"Branch '{branch_name}' already exists and is checked out"] := by
  simp only [create_and_push_branch, hro] at ht
  rw [validate_pass env.repo hvalid, hmem,
    handle_existing_checked_out env.repo branch_name dry_run
      env.confirm_answer env.suffix_answer (by simp [hact])] at ht
  simp at ht
  subst ht
  rw [validate_pass env.repo hvalid]
  simp

/-- Closed witness for `active_branch_noop`: requesting the checked-out
branch "main". -/
theorem active_branch_noop_witness :
    (create_and_push_branch "main" true false envDirtyConflict).ops = [] ∧
    (create_and_push_branch "main" true false envDirtyConflict).outcome =
      Outcome.returned ∧
    (create_and_push_branch "main" true false envDirtyConflict).closes = 1 ∧
    (create_and_push_branch "main" true false envDirtyConflict).msgs =
      (_validate_repo_state envDirtyConflict.repo).1 ++
        [Msg.warning s!"Branch 'main' already exists and is checked out"] :=
  active_branch_noop "main" true false envDirtyConflict _ rfl rfl rfl rfl rfl

/-- C5: on a non-dry-run invocation with push requested, where branch
creation and checkout succeed and the subsequent push fails with a
git-command failure, the run's messages are a prefix with no success and no
error message (the validation advisories and any conflict-resolution
messages) followed by exactly the two success messages (created, checked out)
and then the single error message, and the process aborts. -/
theorem push_failure_two_successes_then_abort (branch_name : String)
    (env : GitEnv) (t : Trace)
    (ht : create_and_push_branch branch_name true false env = t)
    (hro : env.repo_ok = true) (hvalid : env.repo.head_valid = true)
    (hcreate : env.create_ok = true) (hcheckout : env.checkout_ok = true)
    (hpush : env.push_ok = false)
    (hnoc : env.repo.heads.contains branch_name = true →
      env.repo.active_branch ≠ branch_name ∧ env.confirm_answer = true) :
    ∃ pre name,
      (∀ m ∈ pre, Msg.isSuccess m = false ∧ Msg.isError m = false) ∧
      t.msgs = pre ++
        [Msg.success s!"Created branch '{name}' from {env.repo.active_branch}.",
         Msg.success s!"Checked out branch: {name}",
         Msg.error s!"Git command failed: {env.git_err_text}"] ∧
      t.outcome = Outcome.aborted ∧
      t.ops = [GitOp.createHead name, GitOp.checkout name, GitOp.push name] := by
  obtain ⟨cMsgs, name, hcs, hmsgs⟩ := conflict_step branch_name env hnoc
  simp only [create_and_push_branch, hro] at ht
  rw [validate_pass env.repo hvalid, hcs] at ht
  simp only [hcreate, hcheckout, hpush] at ht
  simp at ht
  subst ht
  refine ⟨(_validate_repo_state env.repo).1 ++ cMsgs, name, ?_, ?_, rfl, rfl⟩
  · intro m hm
    rcases List.mem_append.mp hm with h | h
    · exact warning_not_success_error m (validate_pass_warnings env.repo hvalid m h)
    · exact hmsgs m h
  · rw [validate_pass env.repo hvalid]
    simp

/-- Closed witness for `push_failure_two_successes_then_abort` at the
push-failure environment. -/
theorem push_failure_witness :
    ∃ pre name,
      (∀ m ∈ pre, Msg.isSuccess m = false ∧ Msg.isError m = false) ∧
      (create_and_push_branch "feature/x" true false envPushFail).msgs = pre ++
        [Msg.success s!"Created branch '{name}' from {envPushFail.repo.active_branch}.",
         Msg.success s!"Checked out branch: {name}",
         Msg.error s!"Git command failed: {envPushFail.git_err_text}"] ∧
      (create_and_push_branch "feature/x" true false envPushFail).outcome =
        Outcome.aborted ∧
      (create_and_push_branch "feature/x" true false envPushFail).ops =
        [GitOp.createHead name, GitOp.checkout name, GitOp.push name] :=
  push_failure_two_successes_then_abort "feature/x" envPushFail _ rfl rfl rfl
    rfl rfl rfl (by decide)
